import Mathlib

/-!
Verification development for the Government_bus booking backend
(Node/Express server `server.js` plus the React admin analytics table).

The definitions below are a shallow embedding of the server's request
handlers.  Database tables become lists inside an explicit `DB` state,
MySQL transactions become pure functions `DB → Except ApiError DB`
(an error models a rollback: the caller's state is unchanged), fares are
rationals (`ℚ`, the code works with JS numbers on decimal fares), and
timestamps are integers counting seconds.  Each definition cites the
source lines it embeds.
-/

namespace GovBus

/-- Passenger category strings `'NORMAL' | 'CHILD' | 'SENIOR'` used by the
seat objects of `POST /api/bookings` and by `passengerDetails`. -/
inductive SeatType where
  | NORMAL
  | CHILD
  | SENIOR
deriving DecidableEq, Repr

/-- Per-passenger status strings `'BOOKED' | 'CANCELLED'` stored inside the
`passengerDetails` JSON column. -/
inductive PassengerStatus where
  | BOOKED
  | CANCELLED
deriving DecidableEq, Repr

/-- Booking lifecycle status `'CONFIRMED' | 'PARTIALLY_CANCELLED' | 'CANCELLED'`
of the `bookings.status` column (`CONFIRMED` is the column default used by the
insert statements, which never set it explicitly). -/
inductive BookingStatus where
  | CONFIRMED
  | PARTIALLY_CANCELLED
  | CANCELLED
deriving DecidableEq, Repr

/-- The `bookings.discountType` column values. -/
inductive DiscountType where
  | NONE
  | CHILD
  | SENIOR
  | MIXED
deriving DecidableEq, Repr

/-- Character-wise model of JavaScript's `String.prototype.trim`: drop
leading and trailing whitespace characters. -/
def trimStr (s : String) : String :=
  ⟨((s.data.dropWhile Char.isWhitespace).reverse.dropWhile Char.isWhitespace).reverse⟩

/-- Character-wise model of JavaScript's `String.prototype.toLowerCase`. -/
def lowerStr (s : String) : String :=
  ⟨s.data.map Char.toLower⟩

/-- Name normalization used throughout the server:
`name.trim().toLowerCase()` (e.g. server lines 1332, 1800-1801, 1969-1970,
2097-2098, 2242). -/
def normalize (s : String) : String :=
  lowerStr (trimStr s)

/-- One `routestops` row as assembled into `fullRouteStops`
(server lines 1330-1337): stop name, cumulative fare from the first stop,
0-based stop order, and the departure time-of-day (hours/minutes, parsed by
the cancel handler from the `'HH:mm:ss'` string at line 2248). -/
structure RouteStop where
  name : String
  fare : ℚ
  order : Nat
  depHour : Nat
  depMinute : Nat
deriving DecidableEq, Repr

/-- One `schedules` row together with its `routestops` rows (the join of
`fetchAndAssembleSchedules`, server lines 1262-1299). -/
structure Schedule where
  id : String
  stops : List RouteStop
deriving DecidableEq, Repr

/-- The rows of the `settings` key/value table that the embedded handlers
read, plus the admin-configured discount percentages
(`childDiscountPercentage` / `seniorDiscountPercentage`, read with defaults
`'40'`/`'50'` at server lines 2112-2113). -/
structure Settings where
  isBookingSystemOnline : Bool
  isFreeBookingEnabled : Bool
  isDiscountSystemEnabled : Bool
  isCancellationEnabled : Bool
  childDiscountPercentage : ℚ
  seniorDiscountPercentage : ℚ
deriving DecidableEq, Repr

/-- Stable insertion of a stop into a list sorted by `order`; together with
`sortStops` this embeds `.sort((a, b) => a.order - b.order)`
(server line 1306). -/
def sortInsert (s : RouteStop) : List RouteStop → List RouteStop
  | [] => [s]
  | t :: ts => if s.order ≤ t.order then s :: t :: ts else t :: sortInsert s ts

/-- Stable sort of stops by `order` (server line 1306). -/
def sortStops : List RouteStop → List RouteStop
  | [] => []
  | s :: ts => sortInsert s (sortStops ts)

/-- The assembled schedule object produced by `fetchAndAssembleSchedules`
for one schedule id, restricted to the fields the embedded handlers use:
`origin` (first valid stop's name, line 1313), the district-gated discount
flag (line 1315) and `fullRouteStops` (lines 1330-1337). -/
structure AssembledSchedule where
  id : String
  origin : String
  isDiscountEnabled : Bool
  fullRouteStops : List RouteStop
deriving DecidableEq, Repr

/-- Embeds `fetchAndAssembleSchedules` for a single schedule (server lines
1301-1342): discard stops with blank names, sort by order, treat the
schedule as non-existent when no valid stop remains, set
`isDiscountEnabled = isDiscountSystemEnabled && discountedDistricts.has(origin)`
(line 1315). -/
def assembleSchedule (settings : Settings) (discountedDistricts : List String)
    (sched : Schedule) : Option AssembledSchedule :=
  let valid := sortStops (sched.stops.filter (fun s => trimStr s.name ≠ ""))
  match valid with
  | [] => none
  | first :: _ =>
    some { id := sched.id
           origin := first.name
           isDiscountEnabled :=
             settings.isDiscountSystemEnabled && discountedDistricts.contains first.name
           fullRouteStops := valid }

/-- Embeds `stopOrderMap[name]` (server lines 1964-1970): the reduce builds a map
keyed by normalized stop name, so a later stop with the same normalized name
overwrites an earlier one — hence the reversed search. -/
def lookupStopOrder (stops : List RouteStop) (name : String) : Option Nat :=
  (stops.reverse.find? (fun s => normalize s.name == normalize name)).map (·.order)

/-- Embeds `fullRouteStops.find(s => s.normalizedName === name.trim().toLowerCase())`
(server lines 2097-2098): first match. -/
def findStop (stops : List RouteStop) (name : String) : Option RouteStop :=
  stops.find? (fun s => normalize s.name == normalize name)

/-- The half-open segment overlap test of the availability endpoint:
`Math.max(userOriginOrder, bookingOriginOrder) < Math.min(userDestinationOrder, bookingDestinationOrder)`
(server line 1996). -/
def segmentsOverlap (reqO reqD occO occD : Nat) : Bool :=
  max reqO occO < min reqD occD

/-- One `bookedseats` row: `(bookingId, seatId, origin, destination)`
(inserted at server lines 2047 and 2181-2186). -/
structure BookedSeat where
  bookingId : String
  seatId : String
  origin : String
  destination : String
deriving DecidableEq, Repr

/-- The overlap loop of `GET /api/bookings/seats/:scheduleId`
(server lines 1987-2001): for each live occupancy row resolve its own
origin/destination orders against `stopOrderMap`, silently skip rows that no
longer resolve, and collect the seat ids of the overlapping rows. -/
def unavailableSeats (stops : List RouteStop) (segs : List BookedSeat)
    (reqO reqD : Nat) : List String :=
  (segs.filter (fun seg =>
      match lookupStopOrder stops seg.origin, lookupStopOrder stops seg.destination with
      | some occO, some occD => segmentsOverlap reqO reqD occO occD
      | _, _ => false)).map (·.seatId)

/-- One entry of the `passengerDetails` JSON list stored on a booking
(built at server lines 2124-2145): `aadhaarNumber` is attached only for
discounted CHILD/SENIOR seats, `fare` is the per-passenger fare actually
charged, `status` starts `'BOOKED'`. -/
structure PassengerDetail where
  seatId : String
  fullName : String
  type : SeatType
  status : PassengerStatus
  aadhaarNumber : Option String
  fare : ℚ
deriving DecidableEq, Repr

/-- One `bookings` row (inserted at server lines 2042-2045 and 2162-2179). -/
structure Booking where
  id : String
  userId : String
  scheduleId : String
  fare : ℚ
  originalFare : ℚ
  bookingDate : Int
  isFreeTicket : Bool
  origin : String
  destination : String
  discountType : DiscountType
  passengerDetails : List PassengerDetail
  status : BookingStatus
deriving DecidableEq, Repr

/-- One `govtbeneficiaries` row: free-ticket eligibility record. -/
structure Beneficiary where
  id : String
  govtExamRegistrationNumber : String
  phone : String
  ticketClaimed : Bool
deriving DecidableEq, Repr

/-- The database state the embedded handlers read and write.  The `users`
table only supplies the caller identity (`userId` argument) and is omitted. -/
structure DB where
  settings : Settings
  discountedDistricts : List String
  schedules : List Schedule
  bookings : List Booking
  bookedseats : List BookedSeat
  beneficiaries : List Beneficiary
deriving Repr

/-- The distinct error responses of the embedded handlers; an error models a
rolled-back transaction, so the caller's `DB` state is unchanged. -/
inductive ApiError where
  | missingFields
  | missingPassengerName
  | invalidAadhaar
  | scheduleNotFound
  | invalidSegment
  | seatConflict
  | freeBookingDisabled
  | eligibilityNotFound
  | alreadyClaimed
  | tooManySeatsForFree
  | cancellationDisabled
  | bookingNotFound
  | notBookingOwner
  | alreadyCancelled
  | departureUnknown
  | windowClosed
  | nothingToCancel
deriving DecidableEq, Repr

/-- Embeds `fetchAndAssembleSchedules(connection, scheduleId)` followed by
`schedulesMap[scheduleId]` (server lines 2090-2091): a schedule whose valid
stop list is empty was deleted from the map and reads as not found. -/
def resolveSchedule (db : DB) (scheduleId : String) : Option AssembledSchedule :=
  (db.schedules.find? (fun s => s.id == scheduleId)).bind
    (assembleSchedule db.settings db.discountedDistricts)

/-- One element of the `seats` array of `POST /api/bookings`. -/
structure SeatRequest where
  seatId : String
  fullName : String
  type : SeatType
  aadhaarNumber : Option String
deriving DecidableEq, Repr

/-- The body of `POST /api/bookings` (the authenticated user id is passed
separately). -/
structure BookPaidRequest where
  scheduleId : String
  seats : List SeatRequest
  origin : String
  destination : String
deriving DecidableEq, Repr

/-- The per-seat validation loop of `POST /api/bookings` (server lines
2077-2084): reject on the first seat with a blank full name, then on the
first CHILD/SENIOR seat whose Aadhaar number is absent or not 12 characters. -/
def validateSeats : List SeatRequest → Except ApiError Unit
  | [] => .ok ()
  | seat :: rest =>
    if trimStr seat.fullName == "" then .error .missingPassengerName
    else if (seat.type == .CHILD || seat.type == .SENIOR) &&
            (match seat.aadhaarNumber with
             | none => true
             | some a => a.length != 12) then
      .error .invalidAadhaar
    else validateSeats rest

/-- The per-seat fare of the booking loop (server lines 2122-2139):
`finalFarePerSeat` starts at `baseFarePerSeat` and is multiplied by
`(1 - discount/100)` only for CHILD/SENIOR seats when `isDiscountEnabled`. -/
def seatFare (base childD seniorD : ℚ) (isDiscountEnabled : Bool)
    (t : SeatType) : ℚ :=
  if isDiscountEnabled then
    match t with
    | .CHILD => base * (1 - childD / 100)
    | .SENIOR => base * (1 - seniorD / 100)
    | .NORMAL => base
  else base

/-- The `passengerDetail` object built per seat (server lines 2124-2145). -/
def mkPassengerDetail (base childD seniorD : ℚ) (isDiscountEnabled : Bool)
    (seat : SeatRequest) : PassengerDetail :=
  { seatId := seat.seatId
    fullName := seat.fullName
    type := seat.type
    status := .BOOKED
    aadhaarNumber :=
      if isDiscountEnabled && (seat.type == .CHILD || seat.type == .SENIOR) then
        seat.aadhaarNumber
      else none
    fare := seatFare base childD seniorD isDiscountEnabled seat.type }

/-- The `discountTypeForDb` classification (server lines 2148-2159): MIXED
when both CHILD and SENIOR seats appear, the single discounted category when
only one appears, NONE when every seat is NORMAL. -/
def classifyDiscount (seats : List SeatRequest) : DiscountType :=
  let hasChild := seats.any (fun s => s.type == .CHILD)
  let hasSenior := seats.any (fun s => s.type == .SENIOR)
  if hasChild && hasSenior then .MIXED
  else if hasChild then .CHILD
  else if hasSenior then .SENIOR
  else .NONE

/-- Model of the `ER_DUP_ENTRY` fallback on the `bookedseats` insert (server
lines 2193-2195 and 2060-2062).  The repository contains no `CREATE TABLE`
for `bookedseats`; since `bookingId` is a fresh UUID on every call, the
strongest unique key a schema could place over the inserted columns that can
ever fire across bookings is `(seatId, origin, destination)`, which is what
this predicate checks. -/
def dupSeatRow (rows : List BookedSeat) (seatId origin destination : String) : Bool :=
  rows.any (fun r => r.seatId == seatId && r.origin == origin && r.destination == destination)

/-- Embeds `POST /api/bookings` (server lines 2069-2200).  Note the handler inserts
the booking and its `bookedseats` rows without any availability or overlap
re-check against existing occupancies; the only seat-level protection is the
`ER_DUP_ENTRY` catch modelled by `dupSeatRow`.  `bookingId` is the UUID
generated at line 2161 and `now` the `new Date()` of line 2172. -/
def bookPaid (db : DB) (userId : String) (req : BookPaidRequest)
    (bookingId : String) (now : Int) : Except ApiError (DB × Booking) :=
  if req.scheduleId == "" || req.seats.isEmpty || req.origin == "" || req.destination == "" then
    .error .missingFields
  else match validateSeats req.seats with
  | .error e => .error e
  | .ok _ =>
    match resolveSchedule db req.scheduleId with
    | none => .error .scheduleNotFound
    | some schedule =>
      match findStop schedule.fullRouteStops req.origin,
            findStop schedule.fullRouteStops req.destination with
      | some originStop, some destStop =>
        if originStop.order ≥ destStop.order then .error .invalidSegment
        else
          let baseFarePerSeat := destStop.fare - originStop.fare
          let childDiscount := db.settings.childDiscountPercentage
          let seniorDiscount := db.settings.seniorDiscountPercentage
          let isDiscountEnabled :=
            db.settings.isDiscountSystemEnabled && schedule.isDiscountEnabled
          let passengerDetails := req.seats.map
            (mkPassengerDetail baseFarePerSeat childDiscount seniorDiscount isDiscountEnabled)
          let totalFare := (passengerDetails.map (·.fare)).sum
          let booking : Booking :=
            { id := bookingId
              userId := userId
              scheduleId := req.scheduleId
              fare := totalFare
              originalFare := totalFare
              bookingDate := now
              isFreeTicket := false
              origin := req.origin
              destination := req.destination
              discountType := classifyDiscount req.seats
              passengerDetails := passengerDetails
              status := .CONFIRMED }
          if req.seats.any (fun s => dupSeatRow db.bookedseats s.seatId req.origin req.destination) then
            .error .seatConflict
          else
            .ok ({ db with
                    bookings := db.bookings ++ [booking]
                    bookedseats := db.bookedseats ++ req.seats.map
                      (fun s => { bookingId := bookingId
                                  seatId := s.seatId
                                  origin := req.origin
                                  destination := req.destination }) },
                 booking)
      | _, _ => .error .invalidSegment

/-- The SQL join of `GET /api/bookings/seats/:scheduleId` (server lines
1979-1985): `bookedseats` rows of bookings of this schedule whose
`bookingDate` is within the last 24 hours (86400 seconds). -/
def liveBookedSegments (db : DB) (scheduleId : String) (now : Int) : List BookedSeat :=
  db.bookedseats.filter (fun bs =>
    db.bookings.any (fun b =>
      b.id == bs.bookingId && b.scheduleId == scheduleId &&
        decide (now - 86400 ≤ b.bookingDate)))

/-- Embeds `GET /api/bookings/seats/:scheduleId` (server lines 1948-2006): resolve
the requested segment against the stop-order map, reject unresolvable or
inverted segments, and return the seats of overlapping live occupancies. -/
def availabilityQuery (db : DB) (scheduleId userOrigin userDestination : String)
    (now : Int) : Except ApiError (List String) :=
  match resolveSchedule db scheduleId with
  | none => .error .scheduleNotFound
  | some schedule =>
    match lookupStopOrder schedule.fullRouteStops userOrigin,
          lookupStopOrder schedule.fullRouteStops userDestination with
    | some reqO, some reqD =>
      if reqO ≥ reqD then .error .invalidSegment
      else .ok (unavailableSeats schedule.fullRouteStops
                  (liveBookedSegments db scheduleId now) reqO reqD)
    | _, _ => .error .invalidSegment

/-- The listed fare of `GET /api/schedules/route` for one matched schedule
(server lines 1805-1829): first index of each normalized name, match only
when `originIndex < destIndex`, fare `Math.max(0, destStop.fare - originStop.fare)`. -/
def routeSearchFare (schedule : AssembledSchedule) (origin destination : String) : Option ℚ :=
  match schedule.fullRouteStops.findIdx? (fun s => normalize s.name == normalize origin),
        schedule.fullRouteStops.findIdx? (fun s => normalize s.name == normalize destination) with
  | some originIndex, some destIndex =>
    if originIndex < destIndex then
      match schedule.fullRouteStops.get? originIndex,
            schedule.fullRouteStops.get? destIndex with
      | some originStop, some destStop => some (max 0 (destStop.fare - originStop.fare))
      | _, _ => none
    else none
  | _, _ => none

/-- Start of the calendar day containing instant `t` (seconds). -/
def dayStart (t : Int) : Int :=
  t - t % 86400

/-- The departure instant built by the cancel handler (server lines
2248-2255): copy the booking timestamp, `setHours(depHour, depMinute, 0, 0)`,
and roll one day forward when the combined instant is strictly earlier than
the booking timestamp. -/
def departureInstant (bookingDate : Int) (depHour depMinute : Nat) : Int :=
  let sameDay := dayStart bookingDate + depHour * 3600 + depMinute * 60
  if sameDay < bookingDate then sameDay + 86400 else sameDay

/-- Embeds `oneHourBeforeDeparture` (server line 2256). -/
def cancellationCutoff (bookingDate : Int) (depHour depMinute : Nat) : Int :=
  departureInstant bookingDate depHour depMinute - 3600

/-- One iteration of the cancel loop (server lines 2268-2274):
`findIndex(p => p.seatId === seatId && p.status !== 'CANCELLED')`, flip the
first match to CANCELLED and return its stored fare; `none` when no
passenger matches. -/
def cancelSeat : List PassengerDetail → String → Option (List PassengerDetail × ℚ)
  | [], _ => none
  | p :: ps, sid =>
    if p.seatId == sid && p.status != PassengerStatus.CANCELLED then
      some ({ p with status := .CANCELLED } :: ps, p.fare)
    else
      (cancelSeat ps sid).map (fun r => (p :: r.1, r.2))

/-- The cancel loop over the requested seat ids (server lines 2264-2275):
returns the updated passenger list, `fareToRefund`, and
`successfullyCancelledSeats`; unmatched seat ids are silently skipped. -/
def processCancellations (pds : List PassengerDetail) :
    List String → List PassengerDetail × ℚ × List String
  | [] => (pds, 0, [])
  | sid :: rest =>
    match cancelSeat pds sid with
    | some (pds', fare) =>
      let r := processCancellations pds' rest
      (r.1, fare + r.2.1, sid :: r.2.2)
    | none => processCancellations pds rest

/-- Embeds `POST /api/bookings/:bookingId/cancel` (server lines 2202-2304).  Checks
in source order: non-empty seat list, cancellation toggle, booking exists,
caller owns it, not already fully cancelled, schedule resolvable, origin
stop resolvable (its departure time is a required column and is modelled as
always present), cancellation window still open, at least one seat actually
cancellable.  On success: refunded seats flip to CANCELLED, their
`bookedseats` rows are deleted, `fare` drops by the refund, and `status` is
recomputed from the cancelled/total ratio (lines 2282-2294). -/
def cancelBooking (db : DB) (userId bookingId : String) (seatIds : List String)
    (now : Int) : Except ApiError (DB × ℚ × List String) :=
  if seatIds.isEmpty then .error .missingFields
  else if !db.settings.isCancellationEnabled then .error .cancellationDisabled
  else match db.bookings.find? (fun b => b.id == bookingId) with
  | none => .error .bookingNotFound
  | some booking =>
    if booking.userId ≠ userId then .error .notBookingOwner
    else if booking.status = .CANCELLED then .error .alreadyCancelled
    else match resolveSchedule db booking.scheduleId with
    | none => .error .scheduleNotFound
    | some schedule =>
      match findStop schedule.fullRouteStops booking.origin with
      | none => .error .departureUnknown
      | some originStop =>
        if now ≥ cancellationCutoff booking.bookingDate originStop.depHour originStop.depMinute then
          .error .windowClosed
        else
          let r := processCancellations booking.passengerDetails seatIds
          let pds' := r.1
          let fareToRefund := r.2.1
          let cancelledSeats := r.2.2
          if cancelledSeats.isEmpty then .error .nothingToCancel
          else
            let remainingFare := booking.fare - fareToRefund
            let totalSeats := pds'.length
            let totalCancelledSeats :=
              (pds'.filter (fun p => p.status == PassengerStatus.CANCELLED)).length
            let newStatus : BookingStatus :=
              if totalCancelledSeats = totalSeats then .CANCELLED else .PARTIALLY_CANCELLED
            let updated : Booking :=
              { booking with
                  fare := remainingFare
                  passengerDetails := pds'
                  status := newStatus }
            .ok ({ db with
                    bookings := db.bookings.map
                      (fun b => if b.id == bookingId then updated else b)
                    bookedseats := db.bookedseats.filter
                      (fun row => !(row.bookingId == bookingId &&
                                    cancelledSeats.contains row.seatId)) },
                 fareToRefund, cancelledSeats)

/-- The body of `POST /api/bookings/free`. -/
structure FreeBookingRequest where
  scheduleId : String
  seatIds : List String
  origin : String
  destination : String
  registrationNumber : String
  phone : String
deriving DecidableEq, Repr

/-- Embeds `POST /api/bookings/free` (server lines 2008-2067).  Checks in source
order: required fields, exactly one seat, free-booking toggle, a
`govtbeneficiaries` row matching registration number AND phone (selected
`FOR UPDATE`), its `ticketClaimed` flag.  On success a zero-fare booking and
its seat row are inserted and the beneficiary is marked claimed in the same
transaction (line 2050).  The unrelated `users.govtExamRegistrationNumber`
backfill of line 2051 is omitted. -/
def bookFree (db : DB) (userId : String) (req : FreeBookingRequest)
    (bookingId : String) (now : Int) : Except ApiError (DB × Booking) :=
  if req.scheduleId == "" || req.origin == "" || req.destination == "" ||
     req.registrationNumber == "" || req.phone == "" then
    .error .missingFields
  else if req.seatIds.length ≠ 1 then .error .tooManySeatsForFree
  else if !db.settings.isFreeBookingEnabled then .error .freeBookingDisabled
  else match db.beneficiaries.find? (fun g =>
         g.govtExamRegistrationNumber == req.registrationNumber && g.phone == req.phone) with
  | none => .error .eligibilityNotFound
  | some beneficiary =>
    if beneficiary.ticketClaimed then .error .alreadyClaimed
    else if req.seatIds.any (fun sid => dupSeatRow db.bookedseats sid req.origin req.destination) then
      .error .seatConflict
    else
      let booking : Booking :=
        { id := bookingId
          userId := userId
          scheduleId := req.scheduleId
          fare := 0
          originalFare := 0
          bookingDate := now
          isFreeTicket := true
          origin := req.origin
          destination := req.destination
          discountType := .NONE
          passengerDetails := []
          status := .CONFIRMED }
      .ok ({ db with
              bookings := db.bookings ++ [booking]
              bookedseats := db.bookedseats ++ req.seatIds.map
                (fun sid => { bookingId := bookingId
                              seatId := sid
                              origin := req.origin
                              destination := req.destination })
              beneficiaries := db.beneficiaries.map
                (fun g => if g.id == beneficiary.id then { g with ticketClaimed := true } else g) },
           booking)

/-- The per-record upsert of `POST /api/users/bulk-beneficiaries` (server
lines 2492-2496): `INSERT ... ON DUPLICATE KEY UPDATE phone = VALUES(phone),
ticketClaimed = 0`.  The `CREATE TABLE` for `govtbeneficiaries` is not in
the repository; the duplicate key is modelled as a unique index on
`govtExamRegistrationNumber`, the column the rest of the code (and the
spec's glossary entry for beneficiaries) treats as a beneficiary's identity. -/
def upsertBeneficiary (bs : List Beneficiary) (newId regNo phone : String) :
    List Beneficiary :=
  if bs.any (fun g => g.govtExamRegistrationNumber == regNo) then
    bs.map (fun g =>
      if g.govtExamRegistrationNumber == regNo then
        { g with phone := phone, ticketClaimed := false }
      else g)
  else
    bs ++ [{ id := newId
             govtExamRegistrationNumber := regNo
             phone := phone
             ticketClaimed := false }]

/-- The passenger rows the revenue queries aggregate (server lines
2789-2803): `JSON_TABLE` over `passengerDetails` of non-free bookings.
(`passengerDetails IS NOT NULL AND JSON_VALID(...)` always holds in the
model; a paid booking stores a well-formed list and a free booking is
filtered out by `isFreeTicket = 0` anyway.) -/
def paidPassengerRows (bookings : List Booking) : List PassengerDetail :=
  (bookings.filter (fun b => !b.isFreeTicket)).flatMap (·.passengerDetails)

/-- One row of the `byCategory` analytics result (server lines 2805-2813
plus the `netRevenue` mapping of line 2841).  A passenger with `status IS
NULL` counts as booked in the SQL; the model's status is total, with BOOKED
covering that case. -/
structure CategoryAgg where
  type : SeatType
  grossRevenue : ℚ
  refundedRevenue : ℚ
  bookedTickets : Nat
  cancelledTickets : Nat
  netRevenue : ℚ
deriving DecidableEq, Repr

/-- The `categoryQuery` aggregation for one category (server lines
2805-2813) with `netRevenue := grossRevenue - refundedRevenue` (line 2841). -/
def categoryAgg (rows : List PassengerDetail) (t : SeatType) : CategoryAgg :=
  let mine := rows.filter (fun p => p.type == t)
  let booked := mine.filter (fun p => p.status == PassengerStatus.BOOKED)
  let cancelled := mine.filter (fun p => p.status == PassengerStatus.CANCELLED)
  let gross := (booked.map (·.fare)).sum
  let refunded := (cancelled.map (·.fare)).sum
  { type := t
    grossRevenue := gross
    refundedRevenue := refunded
    bookedTickets := booked.length
    cancelledTickets := cancelled.length
    netRevenue := gross - refunded }

/-- The `summary` object of `GET /api/analytics/revenue` (server lines
2843-2849): a fold over the `byCategory` rows starting from zeros. -/
structure RevenueSummary where
  netRevenue : ℚ
  grossRevenue : ℚ
  refundedRevenue : ℚ
  bookedTickets : Nat
  cancelledTickets : Nat
deriving DecidableEq, Repr

/-- One step of the `byCategory.reduce` of server lines 2843-2849. -/
def summaryStep (acc : RevenueSummary) (c : CategoryAgg) : RevenueSummary :=
  { grossRevenue := acc.grossRevenue + c.grossRevenue
    refundedRevenue := acc.refundedRevenue + c.refundedRevenue
    bookedTickets := acc.bookedTickets + c.bookedTickets
    cancelledTickets := acc.cancelledTickets + c.cancelledTickets
    netRevenue := acc.netRevenue + c.netRevenue }

/-- Embeds the `byCategory.reduce` of server lines 2843-2849. -/
def summaryOf (byCategory : List CategoryAgg) : RevenueSummary :=
  byCategory.foldl summaryStep
    { netRevenue := 0
      grossRevenue := 0
      refundedRevenue := 0
      bookedTickets := 0
      cancelledTickets := 0 }

/-- The six per-category revenue cells of one `byDistrict`/`byRoute` row as
delivered by the server's pivoted queries (server lines 2815-2835). -/
structure RevenueCells where
  bookedNormalRevenue : ℚ
  bookedChildRevenue : ℚ
  bookedSeniorRevenue : ℚ
  cancelledNormalRevenue : ℚ
  cancelledChildRevenue : ℚ
  cancelledSeniorRevenue : ℚ
deriving DecidableEq, Repr

/-- One row of the admin `DetailedAnalyticsTable` after the frontend's
per-row derivation (SettingsPage.tsx lines 163-198). -/
structure RevenueRow where
  cells : RevenueCells
  bookedTotal : ℚ
  cancelledTotal : ℚ
  netNormal : ℚ
  netChild : ℚ
  netSenior : ℚ
  netTotal : ℚ
deriving DecidableEq, Repr

/-- The `revenueData` per-row computation (SettingsPage.tsx lines 163-198):
per-category nets are `booked - cancelled`, but the row's Net Total sums
only the positive per-category nets (lines 178-181). -/
def revenueRowData (i : RevenueCells) : RevenueRow :=
  let bookedTotal := i.bookedNormalRevenue + i.bookedChildRevenue + i.bookedSeniorRevenue
  let cancelledTotal :=
    i.cancelledNormalRevenue + i.cancelledChildRevenue + i.cancelledSeniorRevenue
  let netNormal := i.bookedNormalRevenue - i.cancelledNormalRevenue
  let netChild := i.bookedChildRevenue - i.cancelledChildRevenue
  let netSenior := i.bookedSeniorRevenue - i.cancelledSeniorRevenue
  { cells := i
    bookedTotal := bookedTotal
    cancelledTotal := cancelledTotal
    netNormal := netNormal
    netChild := netChild
    netSenior := netSenior
    netTotal := (if netNormal > 0 then netNormal else 0) +
                (if netChild > 0 then netChild else 0) +
                (if netSenior > 0 then netSenior else 0) }

/-- The `revenueTotals` grand-total row (SettingsPage.tsx lines 221-244):
sum the already-derived rows' cells and totals, then compute every net —
including the net total — as `booked - cancelled`. -/
def revenueTotals (rows : List RevenueRow) : RevenueRow :=
  let acc := rows.foldl
    (fun (acc : RevenueRow) row =>
      { cells :=
          { bookedNormalRevenue := acc.cells.bookedNormalRevenue + row.cells.bookedNormalRevenue
            bookedChildRevenue := acc.cells.bookedChildRevenue + row.cells.bookedChildRevenue
            bookedSeniorRevenue := acc.cells.bookedSeniorRevenue + row.cells.bookedSeniorRevenue
            cancelledNormalRevenue :=
              acc.cells.cancelledNormalRevenue + row.cells.cancelledNormalRevenue
            cancelledChildRevenue :=
              acc.cells.cancelledChildRevenue + row.cells.cancelledChildRevenue
            cancelledSeniorRevenue :=
              acc.cells.cancelledSeniorRevenue + row.cells.cancelledSeniorRevenue }
        bookedTotal := acc.bookedTotal + row.bookedTotal
        cancelledTotal := acc.cancelledTotal + row.cancelledTotal
        netNormal := 0
        netChild := 0
        netSenior := 0
        netTotal := 0 })
    { cells :=
        { bookedNormalRevenue := 0
          bookedChildRevenue := 0
          bookedSeniorRevenue := 0
          cancelledNormalRevenue := 0
          cancelledChildRevenue := 0
          cancelledSeniorRevenue := 0 }
      bookedTotal := 0
      cancelledTotal := 0
      netNormal := 0
      netChild := 0
      netSenior := 0
      netTotal := 0 }
  { acc with
      netNormal := acc.cells.bookedNormalRevenue - acc.cells.cancelledNormalRevenue
      netChild := acc.cells.bookedChildRevenue - acc.cells.cancelledChildRevenue
      netSenior := acc.cells.bookedSeniorRevenue - acc.cells.cancelledSeniorRevenue
      netTotal := acc.bookedTotal - acc.cancelledTotal }

/-! Spec-side observers and a request harness, used to state the claims. -/

/-- Sum of the stored fares of the still-BOOKED passengers of a list. -/
def sumBooked (pds : List PassengerDetail) : ℚ :=
  ((pds.filter (fun p => p.status == PassengerStatus.BOOKED)).map (·.fare)).sum

/-- Sum of the stored fares of the CANCELLED passengers of a list. -/
def sumCancelled (pds : List PassengerDetail) : ℚ :=
  ((pds.filter (fun p => p.status == PassengerStatus.CANCELLED)).map (·.fare)).sum

/-- Number of CANCELLED passengers of a list. -/
def countCancelled (pds : List PassengerDetail) : Nat :=
  (pds.filter (fun p => p.status == PassengerStatus.CANCELLED)).length

/-- Cancellation-conservation property of a looked-up booking: original fare
minus the refunded (CANCELLED) passenger fares equals the current fare, which
in turn equals the sum of the still-BOOKED passenger fares. -/
def conservedBooking : Option Booking → Prop
  | some bf =>
      bf.originalFare - sumCancelled bf.passengerDetails = bf.fare ∧
      bf.fare = sumBooked bf.passengerDetails
  | none => False

/-- Status-consistency property of a looked-up booking: CANCELLED exactly
when every passenger is CANCELLED, PARTIALLY_CANCELLED exactly when some but
not all are. -/
def statusConsistent : Option Booking → Prop
  | some bf =>
      (bf.status = BookingStatus.CANCELLED ↔
        ∀ p ∈ bf.passengerDetails, p.status = PassengerStatus.CANCELLED) ∧
      (bf.status = BookingStatus.PARTIALLY_CANCELLED ↔
        ((∃ p ∈ bf.passengerDetails, p.status = PassengerStatus.CANCELLED) ∧
         ¬ ∀ p ∈ bf.passengerDetails, p.status = PassengerStatus.CANCELLED))
  | none => False

/-- Property of a looked-up beneficiary: found and not yet claimed. -/
def unclaimedFound : Option Beneficiary → Prop
  | some g => g.ticketClaimed = false
  | none => False

/-- Boolean success observer for a handler result. -/
def okB {ε α : Type} : Except ε α → Bool
  | .ok _ => true
  | .error _ => false

/-- Client harness for a sequence of cancellation requests against one
booking: each request runs `cancelBooking`; a failed request was rolled
back, leaving the state unchanged. -/
def runCancels (db : DB) (userId bookingId : String) :
    List (List String × Int) → DB
  | [] => db
  | (sids, t) :: rest =>
    match cancelBooking db userId bookingId sids t with
    | .ok r => runCancels r.1 userId bookingId rest
    | .error _ => runCancels db userId bookingId rest

/-- State projection of a paid-booking result, defaulting to the input state
on error (used only to name concrete outcomes in closed statements). -/
def resDB (r : Except ApiError (DB × Booking)) (d : DB) : DB :=
  match r with
  | .ok x => x.1
  | .error _ => d

/-- Booking projection of a paid-booking result (see `resDB`). -/
def resBooking (r : Except ApiError (DB × Booking)) (b : Booking) : Booking :=
  match r with
  | .ok x => x.2
  | .error _ => b

/-! Concrete fixtures: the worked scenario of the specification (stops
Rohtak 0 / Gohana 50 / Panipat 100 / Chandigarh 250, child discount 40,
senior discount 50, discounts active for Rohtak). -/

/-- Stop list of the specification's worked scenario. -/
def rohtakStops : List RouteStop :=
  [⟨"Rohtak", 0, 0, 23, 0⟩,
   ⟨"Gohana", 50, 1, 23, 30⟩,
   ⟨"Panipat", 100, 2, 23, 45⟩,
   ⟨"Chandigarh", 250, 3, 23, 55⟩]

/-- Settings fixture: every toggle on, default discount percentages. -/
def demoSettings : Settings :=
  { isBookingSystemOnline := true
    isFreeBookingEnabled := true
    isDiscountSystemEnabled := true
    isCancellationEnabled := true
    childDiscountPercentage := 40
    seniorDiscountPercentage := 50 }

/-- Database fixture: one schedule, no bookings yet, one beneficiary. -/
def demoDB : DB :=
  { settings := demoSettings
    discountedDistricts := ["Rohtak"]
    schedules := [⟨"sch1", rohtakStops⟩]
    bookings := []
    bookedseats := []
    beneficiaries := [⟨"ben1", "REG1", "9999", false⟩] }

/-- A placeholder booking for the error branch of the projections. -/
def noBooking : Booking :=
  { id := "", userId := "", scheduleId := "", fare := 0, originalFare := 0
    bookingDate := 0, isFreeTicket := false, origin := "", destination := ""
    discountType := .NONE, passengerDetails := [], status := .CONFIRMED }

/-! Concrete request and state fixtures used by the closed theorems below. -/

def fallingStops : List RouteStop :=
  [⟨"Alpha", 100, 0, 10, 0⟩, ⟨"Beta", 40, 1, 11, 0⟩]

def fallingDB : DB :=
  { settings := demoSettings
    discountedDistricts := []
    schedules := [⟨"schF", fallingStops⟩]
    bookings := []
    bookedseats := []
    beneficiaries := [] }

def fallingReq : BookPaidRequest :=
  { scheduleId := "schF"
    seats := [⟨"A1", "Asha", .NORMAL, none⟩]
    origin := "Alpha"
    destination := "Beta" }

def c1req1 : BookPaidRequest :=
  ⟨"sch1", [⟨"A1", "Asha", .NORMAL, none⟩], "Rohtak", "Panipat"⟩

def c1req2 : BookPaidRequest :=
  ⟨"sch1", [⟨"A1", "Vikram", .NORMAL, none⟩], "Gohana", "Chandigarh"⟩

def c1db1 : DB := resDB (bookPaid demoDB "u1" c1req1 "bk1" 0) demoDB

def c1db2 : DB := resDB (bookPaid c1db1 "u2" c1req2 "bk2" 600) c1db1

def c8req : BookPaidRequest :=
  { scheduleId := "sch1"
    seats := [⟨"A1", "Asha", .CHILD, some "123456789012"⟩,
              ⟨"A2", "Baldev", .SENIOR, some "123456789012"⟩,
              ⟨"A3", "Chandra", .NORMAL, none⟩]
    origin := "Rohtak"
    destination := "Panipat" }

def c5req : BookPaidRequest :=
  { scheduleId := "sch1"
    seats := [⟨"A1", "Devi", .CHILD, some "123456789012"⟩,
              ⟨"A2", "Eshan", .NORMAL, none⟩]
    origin := "Rohtak"
    destination := "Panipat" }

def c5db1 : DB := resDB (bookPaid demoDB "u1" c5req "bk1" 0) demoDB

def c5reqs : List (List String × Int) := [(["A1"], 3600)]

def c5bk : Booking := resBooking (bookPaid demoDB "u1" c5req "bk1" 0) noBooking

def c9req : FreeBookingRequest := ⟨"sch1", ["A1"], "Rohtak", "Panipat", "REG1", "9999"⟩

def c9req2 : FreeBookingRequest := ⟨"sch1", ["A2"], "Rohtak", "Panipat", "REG1", "9999"⟩

def c9reqBad : FreeBookingRequest :=
  ⟨"sch1", ["A1", "A2"], "Rohtak", "Panipat", "REG1", "9999"⟩

def c9db1 : DB := resDB (bookFree demoDB "u1" c9req "bkF1" 0) demoDB

def c9bk : Booking := resBooking (bookFree demoDB "u1" c9req "bkF1" 0) noBooking

def c10db : DB := { demoDB with beneficiaries := [⟨"ben1", "REG1", "9999", true⟩] }

def c10req : FreeBookingRequest := ⟨"sch1", ["A1"], "Rohtak", "Panipat", "REG1", "8888"⟩

/-- Claim C2: in the availability query, a seat is reported unavailable
exactly when some live occupancy row of that seat resolves to orders
`occO`/`occD` with `max(reqO, occO) < min(reqD, occD)`; in particular the
half-open test makes touching endpoints (occupancy `[0,2)` against request
`[2,4)`, and vice versa) non-overlapping. -/
theorem unavailable_iff_overlap (stops : List RouteStop) (segs : List BookedSeat)
    (reqO reqD : Nat) (sid : String) :
    (sid ∈ unavailableSeats stops segs reqO reqD ↔
      ∃ seg ∈ segs, seg.seatId = sid ∧ ∃ occO occD,
        lookupStopOrder stops seg.origin = some occO ∧
        lookupStopOrder stops seg.destination = some occD ∧
        max reqO occO < min reqD occD) ∧
    segmentsOverlap 2 4 0 2 = false ∧ segmentsOverlap 0 2 2 4 = false := by
  refine ⟨?_, by decide, by decide⟩
  simp only [unavailableSeats, List.mem_map, List.mem_filter]
  constructor
  · rintro ⟨seg, ⟨hmem, hp⟩, rfl⟩
    refine ⟨seg, hmem, rfl, ?_⟩
    rcases h1 : lookupStopOrder stops seg.origin with _ | occO
    · rw [h1] at hp; simp at hp
    rcases h2 : lookupStopOrder stops seg.destination with _ | occD
    · rw [h1, h2] at hp; simp at hp
    rw [h1, h2] at hp
    simp only [segmentsOverlap, decide_eq_true_eq] at hp
    exact ⟨occO, occD, rfl, rfl, hp⟩
  · rintro ⟨seg, hmem, rfl, occO, occD, h1, h2, hlt⟩
    refine ⟨seg, ⟨hmem, ?_⟩, rfl⟩
    rw [h1, h2]
    simp only [segmentsOverlap, decide_eq_true_eq]
    exact hlt

theorem posPart_eq_max (x : ℚ) : (if x > 0 then x else 0) = max x 0 := by
  split
  · exact (max_eq_left (le_of_lt (by assumption))).symm
  · exact (max_eq_right (le_of_not_lt (by assumption))).symm

theorem summaryOf_net (cs : List CategoryAgg)
    (hcs : ∀ c ∈ cs, c.netRevenue = c.grossRevenue - c.refundedRevenue) :
    (summaryOf cs).netRevenue = (summaryOf cs).grossRevenue - (summaryOf cs).refundedRevenue := by
  have aux : ∀ (l : List CategoryAgg) (acc : RevenueSummary),
      (∀ c ∈ l, c.netRevenue = c.grossRevenue - c.refundedRevenue) →
      acc.netRevenue = acc.grossRevenue - acc.refundedRevenue →
      (l.foldl summaryStep acc).netRevenue =
        (l.foldl summaryStep acc).grossRevenue - (l.foldl summaryStep acc).refundedRevenue := by
    intro l
    induction l with
    | nil => intro acc _ hacc; simpa using hacc
    | cons c l ih =>
      intro acc hl hacc
      simp only [List.foldl_cons]
      refine ih _ (fun x hx => hl x (List.mem_cons_of_mem _ hx)) ?_
      have hc := hl c (List.mem_cons_self _ _)
      simp only [summaryStep, hacc, hc]
      ring
  exact aux cs _ hcs (by norm_num [summaryOf])

/-- Claim C4, counterexample: for the per-district/per-route row with
booked revenues (100, 0, 50) and cancelled revenues (0, 60, 0), the
frontend row's displayed Net Total is 150 — the negative child component is
clamped to zero — which differs from booked − cancelled = 90.  The claim
that every bucket's net equals booked − cancelled is therefore false. -/
theorem c4_counterexample :
    (revenueRowData ⟨100, 0, 50, 0, 60, 0⟩).netTotal ≠
      (revenueRowData ⟨100, 0, 50, 0, 60, 0⟩).bookedTotal -
        (revenueRowData ⟨100, 0, 50, 0, 60, 0⟩).cancelledTotal := by
  norm_num [revenueRowData]

/-- Claim C4, amended: per-category net components of every row, the
grand-total row's nets (including its net total), the server's `byCategory`
nets and the `summary` net all equal booked − cancelled (negative values
allowed); but each per-district/per-route row's displayed net TOTAL sums
only the positive per-category nets, clamping negative components to 0. -/
theorem c4_amended (i : RevenueCells) (rows : List RevenueRow)
    (cs : List CategoryAgg) (ps : List PassengerDetail) (t : SeatType)
    (hcs : ∀ c ∈ cs, c.netRevenue = c.grossRevenue - c.refundedRevenue) :
    ((revenueRowData i).netNormal = i.bookedNormalRevenue - i.cancelledNormalRevenue ∧
     (revenueRowData i).netChild = i.bookedChildRevenue - i.cancelledChildRevenue ∧
     (revenueRowData i).netSenior = i.bookedSeniorRevenue - i.cancelledSeniorRevenue) ∧
    (revenueRowData i).netTotal =
      max (revenueRowData i).netNormal 0 + max (revenueRowData i).netChild 0 +
        max (revenueRowData i).netSenior 0 ∧
    ((revenueTotals rows).netNormal =
       (revenueTotals rows).cells.bookedNormalRevenue -
         (revenueTotals rows).cells.cancelledNormalRevenue ∧
     (revenueTotals rows).netChild =
       (revenueTotals rows).cells.bookedChildRevenue -
         (revenueTotals rows).cells.cancelledChildRevenue ∧
     (revenueTotals rows).netSenior =
       (revenueTotals rows).cells.bookedSeniorRevenue -
         (revenueTotals rows).cells.cancelledSeniorRevenue ∧
     (revenueTotals rows).netTotal =
       (revenueTotals rows).bookedTotal - (revenueTotals rows).cancelledTotal) ∧
    (categoryAgg ps t).netRevenue =
      (categoryAgg ps t).grossRevenue - (categoryAgg ps t).refundedRevenue ∧
    (summaryOf cs).netRevenue = (summaryOf cs).grossRevenue - (summaryOf cs).refundedRevenue := by
  refine ⟨⟨rfl, rfl, rfl⟩, ?_, ⟨rfl, rfl, rfl, rfl⟩, rfl, summaryOf_net cs hcs⟩
  simp only [revenueRowData, posPart_eq_max]

unseal Rat.add Rat.mul Rat.sub Rat.inv in
/-- Claim C3 (code bug): on a schedule whose stored cumulative fares
decrease (stop `Alpha` fare 100 at order 0, stop `Beta` fare 40 at order 1),
the route-search endpoint floors the listed fare at 0, but `POST
/api/bookings` charges the raw difference: the committed booking's fare is
−60.  The floor the claim asserts for the booking operation is absent at
server line 2104. -/
theorem c3_negative_fare :
    (resolveSchedule fallingDB "schF").map
        (fun sch => routeSearchFare sch "Alpha" "Beta") = some (some 0) ∧
    (resBooking (bookPaid fallingDB "u1" fallingReq "bk1" 0) noBooking).fare = -60 := by
  decide

unseal Rat.add Rat.mul Rat.sub Rat.inv in
/-- Claim C1 (code bug): the paid-booking handler performs no
availability re-check.  After seat `A1` is booked for Rohtak→Panipat
(orders [0,2)), the server's own availability query reports `A1`
unavailable for Gohana→Chandigarh (orders [1,3), overlap at [1,2)), yet a
second `POST /api/bookings` for exactly that seat and segment also commits,
leaving two live overlapping occupancies of seat `A1`. -/
theorem c1_double_booking :
    okB (bookPaid demoDB "u1" c1req1 "bk1" 0) = true ∧
    (availabilityQuery c1db1 "sch1" "Gohana" "Chandigarh" 600).toOption = some ["A1"] ∧
    okB (bookPaid c1db1 "u2" c1req2 "bk2" 600) = true ∧
    c1db2.bookedseats.map (fun r => r.seatId) = ["A1", "A1"] ∧
    segmentsOverlap 1 3 0 2 = true := by
  decide

theorem resolveSchedule_discount (db : DB) (sid : String) (sch : AssembledSchedule)
    (h : resolveSchedule db sid = some sch) :
    sch.isDiscountEnabled =
      (db.settings.isDiscountSystemEnabled && db.discountedDistricts.contains sch.origin) := by
  unfold resolveSchedule at h
  rcases hfind : db.schedules.find? (fun s => s.id == sid) with _ | s
  · rw [hfind] at h; simp at h
  · rw [hfind] at h
    simp only [Option.some_bind] at h
    unfold assembleSchedule at h
    rcases hv : sortStops (s.stops.filter (fun st => trimStr st.name ≠ "")) with _ | ⟨first, rest⟩
    · rw [hv] at h; simp at h
    · rw [hv] at h
      simp only [Option.some.injEq] at h
      subst h
      rfl

/-- Claim C8: when the global discount toggle is on and the schedule's
origin is a discounted district, every CHILD seat is charged
`base × (1 − childDiscountPercentage/100)`, every SENIOR seat
`base × (1 − seniorDiscountPercentage/100)`, every NORMAL seat the
undiscounted base fare `cumulativeFare(dest) − cumulativeFare(origin)`, and
the booking total is the sum of the per-passenger fares. -/
theorem c8_discount_fares (db : DB) (uid : String) (req : BookPaidRequest)
    (bid : String) (now : Int) (db' : DB) (b : Booking)
    (sch : AssembledSchedule) (os ds : RouteStop)
    (hok : bookPaid db uid req bid now = .ok (db', b))
    (hsch : resolveSchedule db req.scheduleId = some sch)
    (hos : findStop sch.fullRouteStops req.origin = some os)
    (hds : findStop sch.fullRouteStops req.destination = some ds)
    (htoggle : db.settings.isDiscountSystemEnabled = true)
    (hdistrict : db.discountedDistricts.contains sch.origin = true) :
    b.passengerDetails.map (·.fare) =
      req.seats.map (fun s =>
        match s.type with
        | .CHILD => (ds.fare - os.fare) * (1 - db.settings.childDiscountPercentage / 100)
        | .SENIOR => (ds.fare - os.fare) * (1 - db.settings.seniorDiscountPercentage / 100)
        | .NORMAL => ds.fare - os.fare) ∧
    b.fare = (b.passengerDetails.map (·.fare)).sum := by
  have hde : sch.isDiscountEnabled = true := by
    rw [resolveSchedule_discount db req.scheduleId sch hsch, htoggle, hdistrict]
    rfl
  unfold bookPaid at hok
  split at hok
  · exact absurd hok (by simp)
  rcases hval : validateSeats req.seats with e | u
  · rw [hval] at hok; exact absurd hok (by simp)
  simp only [hval, hsch, hos, hds] at hok
  split at hok
  · exact absurd hok (by simp)
  split at hok
  · exact absurd hok (by simp)
  rw [Except.ok.injEq, Prod.mk.injEq] at hok
  obtain ⟨-, hb⟩ := hok
  subst hb
  constructor
  · rw [List.map_map]
    refine List.map_congr_left (fun s _ => ?_)
    simp only [Function.comp_apply, mkPassengerDetail, seatFare, htoggle, hde, Bool.and_self]
    cases s.type <;> simp
  · rfl

theorem sumBooked_cons (p : PassengerDetail) (ps : List PassengerDetail) :
    sumBooked (p :: ps) =
      (if p.status == PassengerStatus.BOOKED then p.fare else 0) + sumBooked ps := by
  by_cases h : (p.status == PassengerStatus.BOOKED) = true
  · simp [sumBooked, List.filter_cons, h]
  · simp [sumBooked, List.filter_cons, h]

theorem sumCancelled_cons (p : PassengerDetail) (ps : List PassengerDetail) :
    sumCancelled (p :: ps) =
      (if p.status == PassengerStatus.CANCELLED then p.fare else 0) + sumCancelled ps := by
  by_cases h : (p.status == PassengerStatus.CANCELLED) = true
  · simp [sumCancelled, List.filter_cons, h]
  · simp [sumCancelled, List.filter_cons, h]

theorem countCancelled_cons (p : PassengerDetail) (ps : List PassengerDetail) :
    countCancelled (p :: ps) =
      (if p.status == PassengerStatus.CANCELLED then 1 else 0) + countCancelled ps := by
  by_cases h : (p.status == PassengerStatus.CANCELLED) = true
  · simp [countCancelled, List.filter_cons, h, Nat.add_comm]
  · simp [countCancelled, List.filter_cons, h]

theorem cancelSeat_spec (pds : List PassengerDetail) (sid : String)
    (pds' : List PassengerDetail) (f : ℚ)
    (h : cancelSeat pds sid = some (pds', f)) :
    sumBooked pds' = sumBooked pds - f ∧
    sumCancelled pds' = sumCancelled pds + f ∧
    countCancelled pds' = countCancelled pds + 1 ∧
    pds'.length = pds.length := by
  induction pds generalizing pds' f with
  | nil => simp [cancelSeat] at h
  | cons p ps ih =>
    rw [cancelSeat] at h
    by_cases hc : (p.seatId == sid && p.status != PassengerStatus.CANCELLED) = true
    · rw [if_pos hc] at h
      rw [Option.some.injEq, Prod.mk.injEq] at h
      obtain ⟨hp, hf⟩ := h
      subst hp
      subst hf
      have hpb : p.status = PassengerStatus.BOOKED := by
        rcases hst : p.status
        · rfl
        · rw [hst] at hc; simp at hc
      refine ⟨?_, ?_, ?_, by simp⟩
      · rw [sumBooked_cons, sumBooked_cons]
        simp [hpb]
      · rw [sumCancelled_cons, sumCancelled_cons]
        simp [hpb]
        ring
      · rw [countCancelled_cons, countCancelled_cons]
        simp [hpb]
        ring
    · rw [if_neg hc] at h
      rcases hrec : cancelSeat ps sid with _ | ⟨ps', f'⟩
      · rw [hrec] at h; simp at h
      · rw [hrec] at h
        simp only [Option.map_some', Option.some.injEq, Prod.mk.injEq] at h
        obtain ⟨hp, hf⟩ := h
        subst hp
        subst hf
        obtain ⟨h1, h2, h3, h4⟩ := ih ps' f' hrec
        refine ⟨?_, ?_, ?_, by simp [h4]⟩
        · rw [sumBooked_cons, sumBooked_cons, h1]
          ring
        · rw [sumCancelled_cons, sumCancelled_cons, h2]
          ring
        · rw [countCancelled_cons, countCancelled_cons, h3]
          ring

theorem processCancellations_spec (sids : List String) (pds pds' : List PassengerDetail)
    (refund : ℚ) (cs : List String)
    (h : processCancellations pds sids = (pds', refund, cs)) :
    sumBooked pds' = sumBooked pds - refund ∧
    sumCancelled pds' = sumCancelled pds + refund ∧
    countCancelled pds' = countCancelled pds + cs.length ∧
    pds'.length = pds.length := by
  induction sids generalizing pds pds' refund cs with
  | nil =>
    rw [processCancellations] at h
    rw [Prod.mk.injEq, Prod.mk.injEq] at h
    obtain ⟨h1, h2, h3⟩ := h
    subst h1; subst h2; subst h3
    refine ⟨by ring, by ring, by simp, rfl⟩
  | cons sid rest ih =>
    rw [processCancellations] at h
    rcases hc : cancelSeat pds sid with _ | ⟨pds1, f⟩
    · simp only [hc] at h
      exact ih pds pds' refund cs h
    · simp only [hc] at h
      rcases hr : processCancellations pds1 rest with ⟨pds2, f2, cs2⟩
      rw [hr] at h
      simp only [Prod.mk.injEq] at h
      obtain ⟨h1, h2, h3⟩ := h
      subst h1; subst h2; subst h3
      obtain ⟨a1, a2, a3, a4⟩ := cancelSeat_spec pds sid pds1 f hc
      obtain ⟨b1, b2, b3, b4⟩ := ih pds1 pds2 f2 cs2 hr
      refine ⟨by rw [b1, a1]; ring, by rw [b2, a2]; ring, ?_, by rw [b4, a4]⟩
      rw [b3, a3]
      simp [List.length_cons]
      ring

theorem find?_booking_update (l : List Booking) (bid : String) (u : Booking)
    (hu : (u.id == bid) = true) :
    (l.map (fun b => if b.id == bid then u else b)).find? (fun b => b.id == bid) =
      (l.find? (fun b => b.id == bid)).map (fun _ => u) := by
  induction l with
  | nil => rfl
  | cons b l ih =>
    cases hb : (b.id == bid)
    · rw [List.map_cons, if_neg (by simp [hb]), List.find?_cons, List.find?_cons]
      simp only [hb]
      exact ih
    · rw [List.map_cons, if_pos hb, List.find?_cons, List.find?_cons]
      simp only [hb, hu]
      rfl

theorem bookPaid_creates (db : DB) (uid : String) (req : BookPaidRequest)
    (bid : String) (now : Int) (db' : DB) (b : Booking)
    (hok : bookPaid db uid req bid now = .ok (db', b)) :
    db'.bookings = db.bookings ++ [b] ∧ b.id = bid ∧
    b.originalFare = b.fare ∧
    b.fare = sumBooked b.passengerDetails ∧
    sumCancelled b.passengerDetails = 0 := by
  have hall : ∀ (seats : List SeatRequest) (base cd sd : ℚ) (ide : Bool),
      sumBooked (seats.map (mkPassengerDetail base cd sd ide)) =
        ((seats.map (mkPassengerDetail base cd sd ide)).map (·.fare)).sum ∧
      sumCancelled (seats.map (mkPassengerDetail base cd sd ide)) = 0 := by
    intro seats base cd sd ide
    induction seats with
    | nil => exact ⟨rfl, rfl⟩
    | cons s rest ih =>
      rw [List.map_cons, sumBooked_cons, sumCancelled_cons, List.map_cons, List.sum_cons]
      refine ⟨?_, ?_⟩
      · rw [ih.1]
        simp [mkPassengerDetail]
      · rw [ih.2]
        simp [mkPassengerDetail]
  unfold bookPaid at hok
  split at hok
  · exact Except.noConfusion hok
  rcases hval : validateSeats req.seats with e | u
  · simp only [hval] at hok
    exact Except.noConfusion hok
  simp only [hval] at hok
  rcases hsch : resolveSchedule db req.scheduleId with _ | sch
  · simp only [hsch] at hok
    exact Except.noConfusion hok
  simp only [hsch] at hok
  rcases hos : findStop sch.fullRouteStops req.origin with _ | os <;>
    rcases hds : findStop sch.fullRouteStops req.destination with _ | ds <;>
      simp only [hos, hds] at hok
  any_goals exact Except.noConfusion hok
  split at hok
  · exact Except.noConfusion hok
  split at hok
  · exact Except.noConfusion hok
  rw [Except.ok.injEq, Prod.mk.injEq] at hok
  obtain ⟨hdb, hb⟩ := hok
  subst hb
  refine ⟨by rw [← hdb], rfl, rfl, ?_, ?_⟩
  · exact (hall req.seats _ _ _ _).1.symm
  · exact (hall req.seats _ _ _ _).2

theorem cancel_step (db : DB) (uid bid : String) (sids : List String) (t : Int)
    (db' : DB) (refund : ℚ) (cs : List String) (b : Booking)
    (hok : cancelBooking db uid bid sids t = .ok (db', refund, cs))
    (hfind : db.bookings.find? (fun x => x.id == bid) = some b) :
    ∃ bf, db'.bookings.find? (fun x => x.id == bid) = some bf ∧
      bf.id = b.id ∧
      bf.originalFare = b.originalFare ∧
      bf.fare = b.fare - refund ∧
      bf.passengerDetails = (processCancellations b.passengerDetails sids).1 ∧
      refund = (processCancellations b.passengerDetails sids).2.1 ∧
      cs = (processCancellations b.passengerDetails sids).2.2 ∧
      cs ≠ [] ∧
      bf.status = (if countCancelled bf.passengerDetails = bf.passengerDetails.length
        then BookingStatus.CANCELLED else BookingStatus.PARTIALLY_CANCELLED) := by
  unfold cancelBooking at hok
  split at hok
  · exact Except.noConfusion hok
  split at hok
  · exact Except.noConfusion hok
  simp only [hfind] at hok
  split at hok
  · exact Except.noConfusion hok
  split at hok
  · exact Except.noConfusion hok
  rcases hsch : resolveSchedule db b.scheduleId with _ | sch
  · simp only [hsch] at hok
    exact Except.noConfusion hok
  · simp only [hsch] at hok
    rcases hstop : findStop sch.fullRouteStops b.origin with _ | ostop
    · simp only [hstop] at hok
      exact Except.noConfusion hok
    · simp only [hstop] at hok
      split at hok
      · exact Except.noConfusion hok
      split at hok
      · exact Except.noConfusion hok
      rw [Except.ok.injEq, Prod.mk.injEq, Prod.mk.injEq] at hok
      obtain ⟨hdb, href, hcs⟩ := hok
      subst hdb
      subst href
      subst hcs
      rename_i hNonEmpty
      have hbid : (b.id == bid) = true := (List.find?_eq_some.mp hfind).1
      refine ⟨{ b with
          fare := b.fare - (processCancellations b.passengerDetails sids).2.1,
          passengerDetails := (processCancellations b.passengerDetails sids).1,
          status := if (List.filter (fun p => p.status == PassengerStatus.CANCELLED)
                (processCancellations b.passengerDetails sids).1).length =
              (processCancellations b.passengerDetails sids).1.length
            then BookingStatus.CANCELLED else BookingStatus.PARTIALLY_CANCELLED },
        ?_, rfl, rfl, rfl, rfl, rfl, rfl, ?_, ?_⟩
      · rw [find?_booking_update db.bookings bid { b with
            fare := b.fare - (processCancellations b.passengerDetails sids).2.1,
            passengerDetails := (processCancellations b.passengerDetails sids).1,
            status := if (List.filter (fun p => p.status == PassengerStatus.CANCELLED)
                  (processCancellations b.passengerDetails sids).1).length =
                (processCancellations b.passengerDetails sids).1.length
              then BookingStatus.CANCELLED else BookingStatus.PARTIALLY_CANCELLED } hbid, hfind]
        rfl
      · intro hnil
        rw [hnil] at hNonEmpty
        exact hNonEmpty rfl
      · rfl

/-- Claim C5: for a paid booking, after any sequence of cancellation
requests (failed ones rolled back), the booking's original fare minus the
sum of the fares of all CANCELLED passengers equals its current fare, and
the current fare equals the sum of the still-BOOKED passenger fares. -/
theorem c5_conservation (db : DB) (uid : String) (req : BookPaidRequest)
    (bid : String) (now : Int) (db0 : DB) (b0 : Booking)
    (reqs : List (List String × Int))
    (hok : bookPaid db uid req bid now = .ok (db0, b0))
    (hfresh : db.bookings.find? (fun x => x.id == bid) = none) :
    conservedBooking
      ((runCancels db0 uid bid reqs).bookings.find? (fun x => x.id == bid)) := by
  obtain ⟨hdb0, hid, hof, hfare, hsc⟩ := bookPaid_creates db uid req bid now db0 b0 hok
  have hbid0 : (b0.id == bid) = true := by
    rw [hid]
    exact beq_self_eq_true bid
  have h0 : db0.bookings.find? (fun x => x.id == bid) = some b0 := by
    rw [hdb0, List.find?_append, hfresh, Option.none_or, List.find?_cons, hbid0]
  have aux : ∀ (rs : List (List String × Int)) (d : DB) (bc : Booking),
      d.bookings.find? (fun x => x.id == bid) = some bc →
      bc.fare = sumBooked bc.passengerDetails →
      bc.originalFare = sumBooked bc.passengerDetails + sumCancelled bc.passengerDetails →
      conservedBooking
        ((runCancels d uid bid rs).bookings.find? (fun x => x.id == bid)) := by
    intro rs
    induction rs with
    | nil =>
      intro d bc hf h1 h2
      rw [runCancels, hf]
      exact ⟨by rw [h2, h1]; ring, h1⟩
    | cons r rest ih =>
      intro d bc hf h1 h2
      obtain ⟨sids, t⟩ := r
      rw [runCancels]
      rcases hc : cancelBooking d uid bid sids t with e | res
      · exact ih d bc hf h1 h2
      · obtain ⟨d2, refund, cs⟩ := res
        obtain ⟨bf, hbf, -, hOF, hFare, hPds, hRef, -, -, -⟩ :=
          cancel_step d uid bid sids t d2 refund cs bc hc hf
        rcases hp : processCancellations bc.passengerDetails sids with ⟨pds2, f2, cs2⟩
        rw [hp] at hPds hRef
        obtain ⟨s1, s2, -, -⟩ := processCancellations_spec sids bc.passengerDetails pds2 f2 cs2 hp
        apply ih d2 bf hbf
        · rw [hFare, hPds, hRef, h1, s1]
        · rw [hOF, hPds, h2, s1, s2]
          ring
  exact aux reqs db0 b0 h0 (by rw [hfare]) (by rw [hof, hfare, hsc]; ring)

theorem cancelSeat_none (pds : List PassengerDetail) (sid : String)
    (h : ∀ p ∈ pds, p.seatId = sid → p.status = PassengerStatus.CANCELLED) :
    cancelSeat pds sid = none := by
  induction pds with
  | nil => rfl
  | cons p ps ih =>
    rw [cancelSeat]
    have hcond : ¬((p.seatId == sid && p.status != PassengerStatus.CANCELLED) = true) := by
      by_cases hid : p.seatId = sid
      · simp [h p (List.mem_cons_self _ _) hid]
      · simp [hid]
    rw [if_neg hcond, ih (fun q hq => h q (List.mem_cons_of_mem _ hq))]
    rfl

theorem processCancellations_skip (sids : List String) (pds : List PassengerDetail)
    (h : ∀ p ∈ pds, p.status = PassengerStatus.CANCELLED ∨ p.seatId ∉ sids) :
    processCancellations pds sids = (pds, 0, []) := by
  induction sids with
  | nil => rfl
  | cons sid rest ih =>
    rw [processCancellations]
    have hnone : cancelSeat pds sid = none := by
      refine cancelSeat_none pds sid (fun p hp hid => ?_)
      rcases h p hp with hc | hnot
      · exact hc
      · exact absurd (by rw [hid]; exact List.mem_cons_self _ _) hnot
    rw [hnone]
    exact ih (fun p hp => (h p hp).imp_right (fun hn hmem => hn (List.mem_cons_of_mem _ hmem)))

theorem countCancelled_eq_length_iff (pds : List PassengerDetail) :
    countCancelled pds = pds.length ↔
      ∀ p ∈ pds, p.status = PassengerStatus.CANCELLED := by
  rw [countCancelled]
  constructor
  · intro h
    have hf := (List.filter_sublist (l := pds)).eq_of_length h
    intro p hp
    have hmem : p ∈ pds.filter (fun p => p.status == PassengerStatus.CANCELLED) := by
      rw [hf]; exact hp
    simpa using (List.mem_filter.mp hmem).2
  · intro h
    have hself : pds.filter (fun p => p.status == PassengerStatus.CANCELLED) = pds :=
      List.filter_eq_self.mpr (fun a ha => by simp [h a ha])
    rw [hself]

theorem countCancelled_pos_exists (pds : List PassengerDetail)
    (h : 0 < countCancelled pds) :
    ∃ p ∈ pds, p.status = PassengerStatus.CANCELLED := by
  rw [countCancelled] at h
  rcases hl : pds.filter (fun p => p.status == PassengerStatus.CANCELLED) with _ | ⟨p, rest⟩
  · rw [hl] at h; simp at h
  · have hp : p ∈ pds.filter (fun p => p.status == PassengerStatus.CANCELLED) := by
      rw [hl]; exact List.mem_cons_self _ _
    have hm := List.mem_filter.mp hp
    exact ⟨p, hm.1, by simpa using hm.2⟩

/-- Claim C7: cancelling an already fully CANCELLED booking fails with
`AlreadyCancelled`; when no requested seat id matches a non-CANCELLED
passenger (unmatched ids are silently skipped) the call fails with
`NothingToCancel`; and on success at least one seat was cancelled and the
booking's new status is CANCELLED exactly when every passenger is
CANCELLED, PARTIALLY_CANCELLED exactly when some but not all are. -/
theorem c7_status_transitions (db : DB) (uid bid : String) (sids : List String)
    (now : Int) (b : Booking)
    (hen : db.settings.isCancellationEnabled = true)
    (hne : sids ≠ [])
    (hfind : db.bookings.find? (fun x => x.id == bid) = some b)
    (howner : b.userId = uid) :
    (b.status = BookingStatus.CANCELLED →
      cancelBooking db uid bid sids now = .error .alreadyCancelled) ∧
    (∀ sch ostop, b.status ≠ BookingStatus.CANCELLED →
      resolveSchedule db b.scheduleId = some sch →
      findStop sch.fullRouteStops b.origin = some ostop →
      now < cancellationCutoff b.bookingDate ostop.depHour ostop.depMinute →
      (∀ p ∈ b.passengerDetails, p.status = PassengerStatus.CANCELLED ∨ p.seatId ∉ sids) →
      cancelBooking db uid bid sids now = .error .nothingToCancel) ∧
    (∀ db' refund cs, cancelBooking db uid bid sids now = .ok (db', refund, cs) →
      cs ≠ [] ∧ statusConsistent (db'.bookings.find? (fun x => x.id == bid))) := by
  have hemp : ¬(sids.isEmpty = true) := by
    cases sids with
    | nil => exact absurd rfl hne
    | cons a l => simp
  refine ⟨?_, ?_, ?_⟩
  · intro hst
    unfold cancelBooking
    rw [if_neg hemp, if_neg (by simp [hen])]
    simp only [hfind]
    rw [if_neg (by simp [howner]), if_pos hst]
  · intro sch ostop hst hsch hstop hwin hskip
    unfold cancelBooking
    rw [if_neg hemp, if_neg (by simp [hen])]
    simp only [hfind]
    rw [if_neg (by simp [howner]), if_neg hst]
    simp only [hsch, hstop]
    rw [if_neg (not_le.mpr hwin)]
    simp only [processCancellations_skip sids b.passengerDetails hskip]
    rfl
  · intro db' refund cs hok
    obtain ⟨bf, hbf, -, -, -, hPds, hRef, hCs, hCsne, hStatus⟩ :=
      cancel_step db uid bid sids now db' refund cs b hok hfind
    refine ⟨hCsne, ?_⟩
    rw [hbf]
    rcases hp : processCancellations b.passengerDetails sids with ⟨pds2, f2, cs2⟩
    rw [hp] at hPds hCs
    dsimp only at hPds hCs
    obtain ⟨-, -, hCount, -⟩ := processCancellations_spec sids b.passengerDetails pds2 f2 cs2 hp
    have hpos : 0 < countCancelled bf.passengerDetails := by
      rw [hPds, hCount]
      have : cs2 ≠ [] := by rw [← hCs]; exact hCsne
      have hlen : 0 < cs2.length := List.length_pos.mpr this
      omega
    constructor
    · constructor
      · intro hcanc
        rw [hStatus] at hcanc
        split at hcanc
        · exact (countCancelled_eq_length_iff bf.passengerDetails).mp (by assumption)
        · exact absurd hcanc (by simp)
      · intro hall
        rw [hStatus, if_pos ((countCancelled_eq_length_iff bf.passengerDetails).mpr hall)]
    · constructor
      · intro hpart
        rw [hStatus] at hpart
        split at hpart
        · exact absurd hpart (by simp)
        · refine ⟨countCancelled_pos_exists bf.passengerDetails hpos, ?_⟩
          intro hall
          exact absurd ((countCancelled_eq_length_iff bf.passengerDetails).mpr hall)
            (by assumption)
      · rintro ⟨hsome, hnall⟩
        rw [hStatus, if_neg (fun hc =>
          hnall ((countCancelled_eq_length_iff bf.passengerDetails).mp hc))]

theorem departureInstant_spec (t : Int) (hr mi : Nat) (hh : hr < 24) (hm : mi < 60) :
    departureInstant t hr mi % 86400 = (hr * 3600 + mi * 60 : Int) ∧
    t ≤ departureInstant t hr mi ∧ departureInstant t hr mi < t + 86400 := by
  unfold departureInstant dayStart
  dsimp only
  have hdiv : t - t % 86400 = 86400 * (t / 86400) := by
    rw [Int.emod_def]
    ring
  have h1 : (0:Int) ≤ t % 86400 := Int.emod_nonneg _ (by norm_num)
  have h2 : t % 86400 < 86400 := Int.emod_lt_of_pos _ (by norm_num)
  have hX1 : (0:Int) ≤ (hr:Int) * 3600 + (mi:Int) * 60 := by positivity
  have hX2 : (hr:Int) * 3600 + (mi:Int) * 60 < 86400 := by omega
  by_cases hcase : t - t % 86400 + (hr : Int) * 3600 + (mi : Int) * 60 < t
  · simp only [if_pos hcase]
    refine ⟨?_, by omega, by omega⟩
    rw [hdiv]
    have hre : 86400 * (t / 86400) + (hr:Int) * 3600 + (mi:Int) * 60 + 86400 =
        ((hr:Int) * 3600 + (mi:Int) * 60) + 86400 * (t / 86400 + 1) := by ring
    rw [hre, Int.add_mul_emod_self_left]
    exact Int.emod_eq_of_lt hX1 hX2
  · simp only [if_neg hcase]
    refine ⟨?_, by omega, by omega⟩
    rw [hdiv]
    have hre : 86400 * (t / 86400) + (hr:Int) * 3600 + (mi:Int) * 60 =
        ((hr:Int) * 3600 + (mi:Int) * 60) + 86400 * (t / 86400) := by ring
    rw [hre, Int.add_mul_emod_self_left]
    exact Int.emod_eq_of_lt hX1 hX2

/-- Claim C6: with every earlier check of the cancel handler passing, the
request fails with `WindowClosed` (leaving the booking unchanged — an error
is a rolled-back transaction in this model) exactly when `now` is at or past
departure − 1 hour, where the departure instant combines the booking's
calendar day with the origin stop's departure time-of-day and rolls to the
next day when that combined instant is earlier than the booking timestamp:
it carries the departure time-of-day and is the unique such instant in
`[bookingDate, bookingDate + 24h)`. -/
theorem c6_window (db : DB) (uid bid : String) (sids : List String) (now : Int)
    (b : Booking) (sch : AssembledSchedule) (ostop : RouteStop)
    (hen : db.settings.isCancellationEnabled = true)
    (hne : sids ≠ [])
    (hfind : db.bookings.find? (fun x => x.id == bid) = some b)
    (howner : b.userId = uid)
    (hst : b.status ≠ BookingStatus.CANCELLED)
    (hsch : resolveSchedule db b.scheduleId = some sch)
    (hstop : findStop sch.fullRouteStops b.origin = some ostop)
    (hh : ostop.depHour < 24) (hm : ostop.depMinute < 60) :
    (cancelBooking db uid bid sids now = .error .windowClosed ↔
      now ≥ cancellationCutoff b.bookingDate ostop.depHour ostop.depMinute) ∧
    cancellationCutoff b.bookingDate ostop.depHour ostop.depMinute =
      departureInstant b.bookingDate ostop.depHour ostop.depMinute - 3600 ∧
    departureInstant b.bookingDate ostop.depHour ostop.depMinute % 86400 =
      (ostop.depHour * 3600 + ostop.depMinute * 60 : Int) ∧
    b.bookingDate ≤ departureInstant b.bookingDate ostop.depHour ostop.depMinute ∧
    departureInstant b.bookingDate ostop.depHour ostop.depMinute <
      b.bookingDate + 86400 := by
  have hemp : ¬(sids.isEmpty = true) := by
    cases sids with
    | nil => exact absurd rfl hne
    | cons a l => simp
  refine ⟨⟨?_, ?_⟩, rfl, ?_⟩
  · intro herr
    by_contra hlt
    rw [not_le] at hlt
    unfold cancelBooking at herr
    rw [if_neg hemp, if_neg (by simp [hen])] at herr
    simp only [hfind] at herr
    rw [if_neg (by simp [howner]), if_neg hst] at herr
    simp only [hsch, hstop] at herr
    rw [if_neg (not_le.mpr hlt)] at herr
    split at herr
    · exact ApiError.noConfusion (Except.error.inj herr)
    · exact Except.noConfusion herr
  · intro hge
    unfold cancelBooking
    rw [if_neg hemp, if_neg (by simp [hen])]
    simp only [hfind]
    rw [if_neg (by simp [howner]), if_neg hst]
    simp only [hsch, hstop]
    rw [if_pos hge]
  · exact departureInstant_spec b.bookingDate ostop.depHour ostop.depMinute hh hm

theorem find?_map_pred {α : Type} (l : List α) (f : α → α) (p : α → Bool)
    (hf : ∀ x, p (f x) = p x) :
    (l.map f).find? p = (l.find? p).map f := by
  induction l with
  | nil => rfl
  | cons a l ih =>
    rw [List.map_cons, List.find?_cons, List.find?_cons, hf a]
    cases hp : p a
    · exact ih
    · rfl

/-- Claim C9: a free-ticket booking accepts exactly one seat per call
(`tooManySeatsForFree` otherwise), and marks the matched beneficiary
claimed in the same transaction that creates the booking, so a second
`bookFree` call presenting the same registration number and phone fails
with `AlreadyClaimed` (and, being an error, creates no booking). -/
theorem c9_free_exclusive (db : DB) (uid uid2 : String)
    (req req2 : FreeBookingRequest) (bid bid2 : String) (now now2 : Int)
    (db' : DB) (b : Booking)
    (hok : bookFree db uid req bid now = .ok (db', b))
    (hreg : req2.registrationNumber = req.registrationNumber)
    (hph : req2.phone = req.phone)
    (hsid : req2.scheduleId ≠ "") (hor : req2.origin ≠ "") (hde : req2.destination ≠ "")
    (hone : req2.seatIds.length = 1)
    (r : FreeBookingRequest)
    (h1 : r.scheduleId ≠ "") (h2 : r.origin ≠ "") (h3 : r.destination ≠ "")
    (h4 : r.registrationNumber ≠ "") (h5 : r.phone ≠ "") (h6 : r.seatIds.length ≠ 1) :
    bookFree db' uid2 req2 bid2 now2 = .error .alreadyClaimed ∧
    bookFree db uid r bid now = .error .tooManySeatsForFree := by
  constructor
  · unfold bookFree at hok
    split at hok
    · exact Except.noConfusion hok
    split at hok
    · exact Except.noConfusion hok
    split at hok
    · exact Except.noConfusion hok
    rename_i hfields hlen1 henab
    rcases hfindg : db.beneficiaries.find? (fun g =>
        g.govtExamRegistrationNumber == req.registrationNumber && g.phone == req.phone)
      with _ | g
    · simp only [hfindg] at hok
      exact Except.noConfusion hok
    simp only [hfindg] at hok
    split at hok
    · exact Except.noConfusion hok
    split at hok
    · exact Except.noConfusion hok
    rename_i hclaimed hdup
    rw [Except.ok.injEq, Prod.mk.injEq] at hok
    obtain ⟨hdb, hb⟩ := hok
    subst hdb
    have hrne : ¬((req.registrationNumber == "") = true) :=
      fun hcontr => hfields (by simp [hcontr])
    have hpne : ¬((req.phone == "") = true) :=
      fun hcontr => hfields (by simp [hcontr])
    unfold bookFree
    rw [if_neg ?hcond]
    case hcond =>
      simp only [Bool.or_eq_true, not_or]
      refine ⟨⟨⟨⟨by simpa using hsid, by simpa using hor⟩, by simpa using hde⟩, ?_⟩, ?_⟩
      · rw [hreg]; simpa using hrne
      · rw [hph]; simpa using hpne
    rw [if_neg (by rw [hone]; simp)]
    rw [if_neg henab]
    rw [hreg, hph]
    have hfmap : (db.beneficiaries.map (fun g2 =>
          if g2.id == g.id then { g2 with ticketClaimed := true } else g2)).find?
        (fun g2 => g2.govtExamRegistrationNumber == req.registrationNumber &&
          g2.phone == req.phone) =
        (db.beneficiaries.find? (fun g2 =>
          g2.govtExamRegistrationNumber == req.registrationNumber &&
          g2.phone == req.phone)).map (fun g2 =>
          if g2.id == g.id then { g2 with ticketClaimed := true } else g2) := by
      refine find?_map_pred _ _ _ (fun x => ?_)
      by_cases hx : (x.id == g.id) = true
      · rw [if_pos hx]
      · rw [if_neg hx]
    rw [hfmap, hfindg]
    simp
  · unfold bookFree
    rw [if_neg ?hcond2]
    case hcond2 =>
      simp only [Bool.or_eq_true, not_or]
      exact ⟨⟨⟨⟨by simpa using h1, by simpa using h2⟩, by simpa using h3⟩,
        by simpa using h4⟩, by simpa using h5⟩
    rw [if_pos h6]

theorem upsert_find (l : List Beneficiary) (regNo phone : String)
    (hany : l.any (fun g => g.govtExamRegistrationNumber == regNo) = true) :
    ∃ g', (l.map (fun g => if g.govtExamRegistrationNumber == regNo
            then { g with phone := phone, ticketClaimed := false } else g)).find?
          (fun g => g.govtExamRegistrationNumber == regNo && g.phone == phone) = some g' ∧
      g'.ticketClaimed = false := by
  induction l with
  | nil => simp at hany
  | cons g l ih =>
    rw [List.map_cons, List.find?_cons]
    by_cases hg : (g.govtExamRegistrationNumber == regNo) = true
    · rw [if_pos hg]
      have hpred : (({ g with phone := phone, ticketClaimed := false } :
            Beneficiary).govtExamRegistrationNumber == regNo &&
          ({ g with phone := phone, ticketClaimed := false } :
            Beneficiary).phone == phone) = true := by
        simp [hg]
      rw [hpred]
      exact ⟨_, rfl, rfl⟩
    · rw [if_neg hg]
      have hpred : ((g.govtExamRegistrationNumber == regNo && g.phone == phone)) = false := by
        simp [Bool.and_eq_true]
        intro hcontr
        exact absurd (by simp [hcontr]) hg
      rw [hpred]
      have hany' : l.any (fun g => g.govtExamRegistrationNumber == regNo) = true := by
        rcases List.any_eq_true.mp hany with ⟨x, hx, hpx⟩
        rcases List.mem_cons.mp hx with hxg | hxl
        · exact absurd (hxg ▸ hpx) hg
        · exact List.any_eq_true.mpr ⟨x, hxl, hpx⟩
      exact ih hany'

/-- Claim C10: the bulk-beneficiary upsert (`ON DUPLICATE KEY UPDATE
ticketClaimed = 0`) resets an already-claimed beneficiary's flag, so after
an admin re-upload containing their registration number the beneficiary is
found unclaimed and a further free-ticket booking succeeds. -/
theorem c10_upsert_resets (db : DB) (newId regNo phone uid : String)
    (req : FreeBookingRequest) (bid : String) (now : Int)
    (hclaimed : ∃ g ∈ db.beneficiaries,
      g.govtExamRegistrationNumber = regNo ∧ g.ticketClaimed = true)
    (hreg : req.registrationNumber = regNo) (hph : req.phone = phone)
    (hsid : req.scheduleId ≠ "") (hor : req.origin ≠ "") (hde : req.destination ≠ "")
    (hrne : regNo ≠ "") (hpne : phone ≠ "")
    (hone : req.seatIds.length = 1)
    (hen : db.settings.isFreeBookingEnabled = true)
    (hnodup : ∀ sid ∈ req.seatIds,
      dupSeatRow db.bookedseats sid req.origin req.destination = false) :
    unclaimedFound ((upsertBeneficiary db.beneficiaries newId regNo phone).find?
      (fun g => g.govtExamRegistrationNumber == regNo && g.phone == phone)) ∧
    okB (bookFree { db with
        beneficiaries := upsertBeneficiary db.beneficiaries newId regNo phone }
      uid req bid now) = true := by
  have hany : db.beneficiaries.any (fun g => g.govtExamRegistrationNumber == regNo) = true := by
    rcases hclaimed with ⟨g, hg, hr, -⟩
    exact List.any_eq_true.mpr ⟨g, hg, by simp [hr]⟩
  have hup : upsertBeneficiary db.beneficiaries newId regNo phone =
      db.beneficiaries.map (fun g => if g.govtExamRegistrationNumber == regNo
        then { g with phone := phone, ticketClaimed := false } else g) := by
    unfold upsertBeneficiary
    rw [if_pos hany]
  obtain ⟨g', hfind, hgc⟩ := upsert_find db.beneficiaries regNo phone hany
  constructor
  · rw [hup, hfind]
    exact hgc
  · unfold bookFree
    rw [if_neg ?hcond]
    case hcond =>
      simp only [Bool.or_eq_true, not_or]
      refine ⟨⟨⟨⟨by simpa using hsid, by simpa using hor⟩, by simpa using hde⟩, ?_⟩, ?_⟩
      · rw [hreg]; simpa using hrne
      · rw [hph]; simpa using hpne
    rw [if_neg (by rw [hone]; simp)]
    rw [if_neg (by simp [hen])]
    rw [hreg, hph]
    rw [show ({ db with
        beneficiaries := upsertBeneficiary db.beneficiaries newId regNo phone } :
        DB).beneficiaries = upsertBeneficiary db.beneficiaries newId regNo phone from rfl]
    rw [hup, hfind]
    dsimp only
    rw [hgc]
    rw [if_neg (by simp)]
    rw [if_neg ?hdup]
    case hdup =>
      intro hcontr
      rcases List.any_eq_true.mp hcontr with ⟨sid, hsidmem, hdup1⟩
      rw [hnodup sid hsidmem] at hdup1
      exact Bool.noConfusion hdup1
    rfl

unseal Rat.add Rat.mul Rat.sub Rat.inv in
/-- Witness for C8: the specification's worked scenario — a CHILD, a
SENIOR and a NORMAL seat on the 100-rupee Rohtak→Panipat segment with
default percentages 40/50 cost 60, 50 and 100, total 210. -/
theorem c8_discount_fares_witness :
    bookPaid demoDB "u1" c8req "bk1" 0 =
      .ok (resDB (bookPaid demoDB "u1" c8req "bk1" 0) demoDB,
           resBooking (bookPaid demoDB "u1" c8req "bk1" 0) noBooking) ∧
    resolveSchedule demoDB c8req.scheduleId =
      some ⟨"sch1", "Rohtak", true, rohtakStops⟩ ∧
    findStop rohtakStops c8req.origin = some ⟨"Rohtak", 0, 0, 23, 0⟩ ∧
    findStop rohtakStops c8req.destination = some ⟨"Panipat", 100, 2, 23, 45⟩ ∧
    demoDB.settings.isDiscountSystemEnabled = true ∧
    demoDB.discountedDistricts.contains "Rohtak" = true ∧
    ((resBooking (bookPaid demoDB "u1" c8req "bk1" 0) noBooking).passengerDetails.map
        (·.fare) =
      c8req.seats.map (fun s =>
        match s.type with
        | .CHILD => ((100:ℚ) - 0) * (1 - demoDB.settings.childDiscountPercentage / 100)
        | .SENIOR => ((100:ℚ) - 0) * (1 - demoDB.settings.seniorDiscountPercentage / 100)
        | .NORMAL => (100:ℚ) - 0) ∧
     (resBooking (bookPaid demoDB "u1" c8req "bk1" 0) noBooking).fare =
      ((resBooking (bookPaid demoDB "u1" c8req "bk1" 0) noBooking).passengerDetails.map
        (·.fare)).sum) ∧
    (resBooking (bookPaid demoDB "u1" c8req "bk1" 0) noBooking).passengerDetails.map
        (·.fare) = [60, 50, 100] ∧
    (resBooking (bookPaid demoDB "u1" c8req "bk1" 0) noBooking).fare = 210 := by
  refine ⟨rfl, by decide, by decide, by decide, rfl, by decide, ?_, by decide, by decide⟩
  exact c8_discount_fares demoDB "u1" c8req "bk1" 0
    (resDB (bookPaid demoDB "u1" c8req "bk1" 0) demoDB)
    (resBooking (bookPaid demoDB "u1" c8req "bk1" 0) noBooking)
    ⟨"sch1", "Rohtak", true, rohtakStops⟩ ⟨"Rohtak", 0, 0, 23, 0⟩
    ⟨"Panipat", 100, 2, 23, 45⟩ rfl (by decide) (by decide) (by decide) rfl (by decide)

unseal Rat.add Rat.mul Rat.sub Rat.inv in
/-- Witness for C5: cancelling the CHILD seat (fare 60) of a CHILD+NORMAL
booking with original fare 160 leaves fare 100, original fare 160 and
status PARTIALLY_CANCELLED, and conservation holds. -/
theorem c5_conservation_witness :
    bookPaid demoDB "u1" c5req "bk1" 0 =
      .ok (c5db1, resBooking (bookPaid demoDB "u1" c5req "bk1" 0) noBooking) ∧
    demoDB.bookings.find? (fun x => x.id == "bk1") = none ∧
    conservedBooking
      ((runCancels c5db1 "u1" "bk1" c5reqs).bookings.find? (fun x => x.id == "bk1")) ∧
    (runCancels c5db1 "u1" "bk1" c5reqs).bookings.map
        (fun b => (b.fare, b.originalFare, b.status)) =
      [(100, 160, BookingStatus.PARTIALLY_CANCELLED)] := by
  refine ⟨rfl, rfl, ?_, by decide⟩
  exact c5_conservation demoDB "u1" c5req "bk1" 0 c5db1
    (resBooking (bookPaid demoDB "u1" c5req "bk1" 0) noBooking) c5reqs rfl rfl

unseal Rat.add Rat.mul Rat.sub Rat.inv in
/-- Witness for C6: a booking made at midnight on the 23:00-departure
schedule; a cancellation attempt at `now = 100000` (past the 79200-second
cutoff) instantiates the window characterization. -/
theorem c6_window_witness :
    c5db1.settings.isCancellationEnabled = true ∧
    (["A1"] : List String) ≠ [] ∧
    c5db1.bookings.find? (fun x => x.id == "bk1") =
      some (resBooking (bookPaid demoDB "u1" c5req "bk1" 0) noBooking) ∧
    (resBooking (bookPaid demoDB "u1" c5req "bk1" 0) noBooking).userId = "u1" ∧
    (resBooking (bookPaid demoDB "u1" c5req "bk1" 0) noBooking).status ≠
      BookingStatus.CANCELLED ∧
    resolveSchedule c5db1
        (resBooking (bookPaid demoDB "u1" c5req "bk1" 0) noBooking).scheduleId =
      some ⟨"sch1", "Rohtak", true, rohtakStops⟩ ∧
    findStop rohtakStops
        (resBooking (bookPaid demoDB "u1" c5req "bk1" 0) noBooking).origin =
      some ⟨"Rohtak", 0, 0, 23, 0⟩ ∧
    (23:Nat) < 24 ∧ (0:Nat) < 60 ∧
    ((cancelBooking c5db1 "u1" "bk1" ["A1"] 100000 = .error .windowClosed ↔
        100000 ≥ cancellationCutoff
          (resBooking (bookPaid demoDB "u1" c5req "bk1" 0) noBooking).bookingDate 23 0) ∧
      cancellationCutoff
          (resBooking (bookPaid demoDB "u1" c5req "bk1" 0) noBooking).bookingDate 23 0 =
        departureInstant
          (resBooking (bookPaid demoDB "u1" c5req "bk1" 0) noBooking).bookingDate 23 0 -
          3600 ∧
      departureInstant
          (resBooking (bookPaid demoDB "u1" c5req "bk1" 0) noBooking).bookingDate 23 0 %
          86400 =
        ((23:Nat) * 3600 + (0:Nat) * 60 : Int) ∧
      (resBooking (bookPaid demoDB "u1" c5req "bk1" 0) noBooking).bookingDate ≤
        departureInstant
          (resBooking (bookPaid demoDB "u1" c5req "bk1" 0) noBooking).bookingDate 23 0 ∧
      departureInstant
          (resBooking (bookPaid demoDB "u1" c5req "bk1" 0) noBooking).bookingDate 23 0 <
        (resBooking (bookPaid demoDB "u1" c5req "bk1" 0) noBooking).bookingDate + 86400) := by
  refine ⟨rfl, by decide, rfl, rfl, by decide, by decide, by decide, by decide, by decide, ?_⟩
  exact c6_window c5db1 "u1" "bk1" ["A1"] 100000
    (resBooking (bookPaid demoDB "u1" c5req "bk1" 0) noBooking)
    ⟨"sch1", "Rohtak", true, rohtakStops⟩ ⟨"Rohtak", 0, 0, 23, 0⟩
    rfl (by decide) rfl rfl (by decide) (by decide) (by decide) (by decide) (by decide)

unseal Rat.add Rat.mul Rat.sub Rat.inv in
/-- Witness for C7: cancelling one of the two seats of a CONFIRMED
booking inside the window; the call succeeds (okB = true) and the status
characterization holds. -/
theorem c7_status_transitions_witness :
    c5db1.settings.isCancellationEnabled = true ∧
    (["A1"] : List String) ≠ [] ∧
    c5db1.bookings.find? (fun x => x.id == "bk1") = some c5bk ∧
    c5bk.userId = "u1" ∧
    ((c5bk.status = BookingStatus.CANCELLED →
        cancelBooking c5db1 "u1" "bk1" ["A1"] 3600 = .error .alreadyCancelled) ∧
      (∀ sch ostop, c5bk.status ≠ BookingStatus.CANCELLED →
        resolveSchedule c5db1 c5bk.scheduleId = some sch →
        findStop sch.fullRouteStops c5bk.origin = some ostop →
        (3600:Int) < cancellationCutoff c5bk.bookingDate ostop.depHour ostop.depMinute →
        (∀ p ∈ c5bk.passengerDetails,
          p.status = PassengerStatus.CANCELLED ∨ p.seatId ∉ (["A1"] : List String)) →
        cancelBooking c5db1 "u1" "bk1" ["A1"] 3600 = .error .nothingToCancel) ∧
      (∀ db' refund cs,
        cancelBooking c5db1 "u1" "bk1" ["A1"] 3600 = .ok (db', refund, cs) →
        cs ≠ [] ∧ statusConsistent (db'.bookings.find? (fun x => x.id == "bk1")))) ∧
    okB (cancelBooking c5db1 "u1" "bk1" ["A1"] 3600) = true := by
  refine ⟨rfl, by decide, rfl, rfl, ?_, by decide⟩
  exact c7_status_transitions c5db1 "u1" "bk1" ["A1"] 3600 c5bk rfl (by decide) rfl rfl

unseal Rat.add Rat.mul Rat.sub Rat.inv in
/-- Witness for C9: after a successful free booking for beneficiary
REG1/9999, a second call with the same proof fails `AlreadyClaimed`, and a
two-seat free request fails the one-seat rule. -/
theorem c9_free_exclusive_witness :
    bookFree demoDB "u1" c9req "bkF1" 0 = .ok (c9db1, c9bk) ∧
    c9req2.registrationNumber = c9req.registrationNumber ∧
    c9req2.phone = c9req.phone ∧
    c9req2.scheduleId ≠ "" ∧ c9req2.origin ≠ "" ∧ c9req2.destination ≠ "" ∧
    c9req2.seatIds.length = 1 ∧
    c9reqBad.scheduleId ≠ "" ∧ c9reqBad.origin ≠ "" ∧ c9reqBad.destination ≠ "" ∧
    c9reqBad.registrationNumber ≠ "" ∧ c9reqBad.phone ≠ "" ∧
    c9reqBad.seatIds.length ≠ 1 ∧
    (bookFree c9db1 "u2" c9req2 "bkF2" 50 = .error .alreadyClaimed ∧
     bookFree demoDB "u1" c9reqBad "bkF1" 0 = .error .tooManySeatsForFree) := by
  refine ⟨rfl, rfl, rfl, by decide, by decide, by decide, by decide, by decide,
    by decide, by decide, by decide, by decide, by decide, ?_⟩
  exact c9_free_exclusive demoDB "u1" "u2" c9req c9req2 "bkF1" "bkF2" 0 50 c9db1 c9bk
    rfl rfl rfl (by decide) (by decide) (by decide) (by decide) c9reqBad
    (by decide) (by decide) (by decide) (by decide) (by decide) (by decide)

unseal Rat.add Rat.mul Rat.sub Rat.inv in
/-- Witness for C10: beneficiary REG1 with `ticketClaimed = 1` is reset
by a re-upload (new phone 8888) and can then book a free ticket again. -/
theorem c10_upsert_resets_witness :
    (∃ g ∈ c10db.beneficiaries,
      g.govtExamRegistrationNumber = "REG1" ∧ g.ticketClaimed = true) ∧
    c10req.registrationNumber = "REG1" ∧ c10req.phone = "8888" ∧
    c10req.scheduleId ≠ "" ∧ c10req.origin ≠ "" ∧ c10req.destination ≠ "" ∧
    ("REG1" : String) ≠ "" ∧ ("8888" : String) ≠ "" ∧
    c10req.seatIds.length = 1 ∧
    c10db.settings.isFreeBookingEnabled = true ∧
    (∀ sid ∈ c10req.seatIds,
      dupSeatRow c10db.bookedseats sid c10req.origin c10req.destination = false) ∧
    (unclaimedFound ((upsertBeneficiary c10db.beneficiaries "ben2" "REG1" "8888").find?
        (fun g => g.govtExamRegistrationNumber == "REG1" && g.phone == "8888")) ∧
     okB (bookFree { c10db with
          beneficiaries := upsertBeneficiary c10db.beneficiaries "ben2" "REG1" "8888" }
        "u1" c10req "bkF3" 0) = true) := by
  refine ⟨by decide, rfl, rfl, by decide, by decide, by decide, by decide, by decide,
    by decide, rfl, by decide, ?_⟩
  exact c10_upsert_resets c10db "ben2" "REG1" "8888" "u1" c10req "bkF3" 0
    (by decide) rfl rfl (by decide) (by decide) (by decide) (by decide) (by decide)
    (by decide) rfl (by decide)

/-- Witness for C4 (amended): the amended statement instantiated at a
concrete row with a negative child net component and empty lists. -/
theorem c4_amended_witness :
    (∀ c ∈ ([] : List CategoryAgg),
      c.netRevenue = c.grossRevenue - c.refundedRevenue) ∧
    (((revenueRowData ⟨120, 30, 0, 20, 50, 0⟩).netNormal = 120 - 20 ∧
      (revenueRowData ⟨120, 30, 0, 20, 50, 0⟩).netChild = 30 - 50 ∧
      (revenueRowData ⟨120, 30, 0, 20, 50, 0⟩).netSenior = 0 - 0) ∧
     (revenueRowData ⟨120, 30, 0, 20, 50, 0⟩).netTotal =
       max (revenueRowData ⟨120, 30, 0, 20, 50, 0⟩).netNormal 0 +
         max (revenueRowData ⟨120, 30, 0, 20, 50, 0⟩).netChild 0 +
         max (revenueRowData ⟨120, 30, 0, 20, 50, 0⟩).netSenior 0 ∧
     ((revenueTotals []).netNormal =
        (revenueTotals []).cells.bookedNormalRevenue -
          (revenueTotals []).cells.cancelledNormalRevenue ∧
      (revenueTotals []).netChild =
        (revenueTotals []).cells.bookedChildRevenue -
          (revenueTotals []).cells.cancelledChildRevenue ∧
      (revenueTotals []).netSenior =
        (revenueTotals []).cells.bookedSeniorRevenue -
          (revenueTotals []).cells.cancelledSeniorRevenue ∧
      (revenueTotals []).netTotal =
        (revenueTotals []).bookedTotal - (revenueTotals []).cancelledTotal) ∧
     (categoryAgg [] SeatType.NORMAL).netRevenue =
       (categoryAgg [] SeatType.NORMAL).grossRevenue -
         (categoryAgg [] SeatType.NORMAL).refundedRevenue ∧
     (summaryOf []).netRevenue =
       (summaryOf []).grossRevenue - (summaryOf []).refundedRevenue) := by
  refine ⟨by simp, ?_⟩
  exact c4_amended ⟨120, 30, 0, 20, 50, 0⟩ [] [] [] SeatType.NORMAL (by simp)

end GovBus
